import Mathlib

/-!
Shallow embedding of `src/static/js/main.js` (the DevCollab interaction
interceptor).  The script registers one `DOMContentLoaded` listener whose body
(i) queries every `form` element and attaches a `submit` handler that calls
`event.preventDefault()` and then `console.log('Form submitted:', form)`,
and (ii) queries every element with class `btn` and attaches a `click`
handler that calls `console.log('Button clicked:', button)`.

A document is modelled as a list of elements; an element reference is its
index in that list (giving DOM-node identity).  Listener registration is an
append to a registry, matching DOM semantics for distinct callback closures
(each `addEventListener` call in the script passes a fresh anonymous
function, so the DOM's dedup of identical callback references never
coalesces two of them).  Event dispatch runs the listeners registered on the
target for the event type in registration order.
-/

namespace DevCollab

/-- A DOM element: its tag name, its class list, and its id attribute. -/
structure Elem where
  tag : String
  classes : List String
  idAttr : String
deriving DecidableEq, Repr

/-- A document, in document order; an element reference is an index. -/
abbrev Document := List Elem

/-- The selector `form` of `document.querySelectorAll('form')`. -/
def matchesForm (e : Elem) : Bool := e.tag == "form"

/-- The selector `.btn` of `document.querySelectorAll('.btn')`. -/
def matchesBtn (e : Elem) : Bool := e.classes.contains "btn"

/-- Indices (starting at `start`) of the elements matching `sel`. -/
def selectFrom (doc : Document) (sel : Elem → Bool) (start : Nat) : List Nat :=
  match doc with
  | [] => []
  | e :: rest =>
      if sel e then start :: selectFrom rest sel (start + 1)
      else selectFrom rest sel (start + 1)

/-- `document.querySelectorAll(sel)`: the element references matching `sel`,
in document order. -/
def querySelectorAll (doc : Document) (sel : Elem → Bool) : List Nat :=
  selectFrom doc sel 0

/-- One `console.log(message, element)` record on the diagnostic channel. -/
inductive LogEntry where
  | entry (message : String) (elemIdx : Nat)
deriving DecidableEq, Repr

/-- The primitive actions a handler body of the script can perform. -/
inductive Action where
  | preventDefault
  | consoleLog (message : String) (elemIdx : Nat)
deriving DecidableEq, Repr

/-- A handler closure of the script, with its captured element reference:
the submit handler of lines 7-12 captures `form`, the click handler of
lines 18-20 captures `button`. -/
inductive Handler where
  | submitHandler (formIdx : Nat)
  | clickHandler (btnIdx : Nat)
deriving DecidableEq, Repr

/-- The body of each handler, as its sequence of primitive actions.
The submit handler calls `event.preventDefault()` first and
`console.log('Form submitted:', form)` second; the click handler only
calls `console.log('Button clicked:', button)`. -/
def handlerBody : Handler → List Action
  | .submitHandler i => [.preventDefault, .consoleLog "Form submitted:" i]
  | .clickHandler i => [.consoleLog "Button clicked:" i]

/-- A registered listener: target element, event type, handler. -/
structure Listener where
  target : Nat
  evType : String
  handler : Handler
deriving DecidableEq, Repr

abbrev Registry := List Listener

/-- `target.addEventListener(ty, h)`: appends the registration (the script
always passes a fresh closure, so the DOM never coalesces it with an
earlier one). -/
def addEventListener (regs : Registry) (target : Nat) (ty : String)
    (h : Handler) : Registry :=
  regs ++ [⟨target, ty, h⟩]

/-- The body of the `DOMContentLoaded` listener (main.js lines 3-22):
bind a submit handler to every form, then a click handler to every
`.btn` element. -/
def domContentLoadedCallback (doc : Document) (regs : Registry) : Registry :=
  let forms := querySelectorAll doc matchesForm
  let regs1 := forms.foldl
    (fun r i => addEventListener r i "submit" (.submitHandler i)) regs
  let buttons := querySelectorAll doc matchesBtn
  buttons.foldl
    (fun r i => addEventListener r i "click" (.clickHandler i)) regs1

/-- The submit listeners the callback produces, in document order. -/
def submitListeners (doc : Document) : Registry :=
  (querySelectorAll doc matchesForm).map
    (fun i => ⟨i, "submit", .submitHandler i⟩)

/-- The click listeners the callback produces, in document order. -/
def clickListeners (doc : Document) : Registry :=
  (querySelectorAll doc matchesBtn).map
    (fun i => ⟨i, "click", .clickHandler i⟩)

/-- The outcome of dispatching one event: whether `preventDefault` was
called on it, and the diagnostic traces emitted while handling it. -/
structure DispatchResult where
  defaultPrevented : Bool
  logs : List LogEntry
deriving DecidableEq, Repr

/-- Run a handler body's actions over a dispatch state. -/
def runActions (acts : List Action) (st : DispatchResult) : DispatchResult :=
  acts.foldl
    (fun s a =>
      match a with
      | .preventDefault => { s with defaultPrevented := true }
      | .consoleLog m i => { s with logs := s.logs ++ [.entry m i] })
    st

/-- The handlers registered on `target` for event type `ty`, in
registration order. -/
def listenersFor (regs : Registry) (target : Nat) (ty : String) :
    List Handler :=
  (regs.filter (fun l => l.target == target && l.evType == ty)).map
    (fun l => l.handler)

/-- Dispatch an event of type `ty` on `target`: run every matching
handler in registration order on a fresh event. -/
def dispatchEvent (regs : Registry) (target : Nat) (ty : String) :
    DispatchResult :=
  (listenersFor regs target ty).foldl
    (fun s h => runActions (handlerBody h) s)
    { defaultPrevented := false, logs := [] }

/-- The browser's native default for a submit event: navigation/reload
occurs exactly when no handler called `preventDefault`. -/
def nativeNavigationOccurs (regs : Registry) (formIdx : Nat) : Bool :=
  !(dispatchEvent regs formIdx "submit").defaultPrevented

/-- The whole observable environment: the document, the listener registry,
the diagnostic console, and effect channels the script never touches
(network, files, user-visible output, native navigations performed). -/
structure World where
  doc : Document
  regs : Registry
  console : List LogEntry
  navigations : List Nat
  networkCalls : List String
  fileWrites : List String
  userVisibleOutput : List String
deriving DecidableEq, Repr

/-- The page-lifecycle events a page load can see: the parser-finished
event `DOMContentLoaded` (fired exactly once by the browser), the later
`load` event, and user interactions on elements. -/
inductive PageEvent where
  | domContentLoaded
  | windowLoad
  | userSubmit (idx : Nat)
  | userClick (idx : Nat)
deriving DecidableEq, Repr

/-- One lifecycle step.  `DOMContentLoaded` runs the script's registered
callback; `load` is ignored by the script; a user submit dispatches a
submit event on the target and then performs native navigation unless it
was prevented; a user click dispatches a click event (clicks on the
elements involved here have no further native default). -/
def stepWorld (w : World) (ev : PageEvent) : World :=
  match ev with
  | .domContentLoaded => { w with regs := domContentLoadedCallback w.doc w.regs }
  | .windowLoad => w
  | .userSubmit i =>
      let r := dispatchEvent w.regs i "submit"
      { w with
        console := w.console ++ r.logs
        navigations := if r.defaultPrevented then w.navigations
          else w.navigations ++ [i] }
  | .userClick i =>
      let r := dispatchEvent w.regs i "click"
      { w with console := w.console ++ r.logs }

/-- Run a sequence of lifecycle events. -/
def runEvents (w : World) (evs : List PageEvent) : World :=
  evs.foldl stepWorld w

/-- The state at the start of a page load: the parsed document, no
listeners, empty console and effect channels. -/
def initWorld (doc : Document) : World :=
  ⟨doc, [], [], [], [], [], []⟩

/-- The diagnostic traces a sequence of lifecycle events emits, as a
function of the document and the registry only. -/
def emittedTraces (doc : Document) (regs : Registry) :
    List PageEvent → List LogEntry
  | [] => []
  | ev :: rest =>
      match ev with
      | .domContentLoaded =>
          emittedTraces doc (domContentLoadedCallback doc regs) rest
      | .windowLoad => emittedTraces doc regs rest
      | .userSubmit i =>
          (dispatchEvent regs i "submit").logs ++ emittedTraces doc regs rest
      | .userClick i =>
          (dispatchEvent regs i "click").logs ++ emittedTraces doc regs rest

/-! ### Structural lemmas about element discovery -/

lemma selectFrom_ge (doc : Document) (sel : Elem → Bool) :
    ∀ s i, i ∈ selectFrom doc sel s → s ≤ i := by
  induction doc with
  | nil => intro s i h; simp [selectFrom] at h
  | cons e rest ih =>
    intro s i h
    simp only [selectFrom] at h
    by_cases hse : sel e
    · rw [if_pos hse] at h
      rcases List.mem_cons.mp h with h1 | h2
      · omega
      · have := ih (s + 1) i h2; omega
    · rw [if_neg hse] at h
      have := ih (s + 1) i h; omega

lemma count_selectFrom (doc : Document) (sel : Elem → Bool) :
    ∀ s k, (selectFrom doc sel s).count (s + k) =
      (match doc[k]? with
       | some e => if sel e then 1 else 0
       | none => 0) := by
  induction doc with
  | nil => intro s k; simp [selectFrom]
  | cons e rest ih =>
    intro s k
    cases k with
    | zero =>
      simp only [selectFrom, List.getElem?_cons_zero, Nat.add_zero]
      have hnot : s ∉ selectFrom rest sel (s + 1) := by
        intro hmem
        have := selectFrom_ge rest sel (s + 1) s hmem
        omega
      by_cases hse : sel e
      · rw [if_pos hse, if_pos hse]
        rw [List.count_cons_self, List.count_eq_zero_of_not_mem hnot]
      · rw [if_neg hse, if_neg hse]
        exact List.count_eq_zero_of_not_mem hnot
    | succ k' =>
      simp only [selectFrom, List.getElem?_cons_succ]
      have harith : s + (k' + 1) = (s + 1) + k' := by omega
      by_cases hse : sel e
      · rw [if_pos hse, List.count_cons_of_ne (by omega), harith]
        exact ih (s + 1) k'
      · rw [if_neg hse, harith]
        exact ih (s + 1) k'

lemma count_querySelectorAll (doc : Document) (sel : Elem → Bool) (i : Nat) :
    (querySelectorAll doc sel).count i =
      (match doc[i]? with
       | some e => if sel e then 1 else 0
       | none => 0) := by
  have h := count_selectFrom doc sel 0 i
  simpa using h

lemma sorted_selectFrom (doc : Document) (sel : Elem → Bool) :
    ∀ s, (selectFrom doc sel s).Sorted (· < ·) := by
  induction doc with
  | nil => intro s; simp [selectFrom]
  | cons e rest ih =>
    intro s
    simp only [selectFrom]
    by_cases hse : sel e
    · rw [if_pos hse]
      refine List.sorted_cons.mpr ⟨?_, ih (s + 1)⟩
      intro b hb
      have := selectFrom_ge rest sel (s + 1) b hb
      omega
    · rw [if_neg hse]
      exact ih (s + 1)

lemma selectFrom_eq_nil (doc : Document) (sel : Elem → Bool)
    (h : ∀ e ∈ doc, sel e = false) : ∀ s, selectFrom doc sel s = [] := by
  induction doc with
  | nil => intro s; rfl
  | cons e rest ih =>
    intro s
    simp only [selectFrom]
    rw [if_neg (by simp [h e (List.mem_cons_self e rest)])]
    exact ih (fun e' he' => h e' (List.mem_cons_of_mem _ he')) (s + 1)

/-! ### The registry produced by the DOMContentLoaded callback -/

lemma foldl_addEventListener (ty : String) (h : Nat → Handler) :
    ∀ (l : List Nat) (regs : Registry),
      l.foldl (fun r i => addEventListener r i ty (h i)) regs =
        regs ++ l.map (fun i => ⟨i, ty, h i⟩) := by
  intro l
  induction l with
  | nil => intro regs; simp
  | cons a l ih =>
    intro regs
    rw [List.foldl_cons, ih]
    simp [addEventListener, List.append_assoc]

lemma domContentLoadedCallback_eq (doc : Document) (regs : Registry) :
    domContentLoadedCallback doc regs =
      regs ++ submitListeners doc ++ clickListeners doc := by
  simp only [domContentLoadedCallback, submitListeners, clickListeners,
    foldl_addEventListener]

lemma listenersFor_append (a b : Registry) (i : Nat) (ty : String) :
    listenersFor (a ++ b) i ty = listenersFor a i ty ++ listenersFor b i ty := by
  simp [listenersFor, List.filter_append]

lemma listenersFor_map_same (h : Nat → Handler) (ty : String) :
    ∀ (l : List Nat) (i : Nat),
      listenersFor (l.map (fun j => ⟨j, ty, h j⟩)) i ty =
        List.replicate (l.count i) (h i) := by
  intro l
  induction l with
  | nil => intro i; simp [listenersFor]
  | cons a l ih =>
    intro i
    by_cases hai : a = i
    · subst hai
      simp only [listenersFor, List.map_cons, List.filter_cons] at ih ⊢
      rw [if_pos (by simp), List.count_cons_self, List.replicate_succ]
      simpa [listenersFor] using ih a
    · simp only [listenersFor, List.map_cons, List.filter_cons] at ih ⊢
      rw [if_neg (by simp [hai]), List.count_cons_of_ne (by omega)]
      simpa [listenersFor] using ih i

lemma listenersFor_map_ne (h : Nat → Handler) (ty ty' : String)
    (hne : ty ≠ ty') :
    ∀ (l : List Nat) (i : Nat),
      listenersFor (l.map (fun j => ⟨j, ty, h j⟩)) i ty' = [] := by
  intro l
  induction l with
  | nil => intro i; simp [listenersFor]
  | cons a l ih =>
    intro i
    simp only [listenersFor, List.map_cons, List.filter_cons] at ih ⊢
    rw [if_neg (by simp [hne])]
    simpa [listenersFor] using ih i

lemma listenersFor_callback_submit (doc : Document) (i : Nat) :
    listenersFor (domContentLoadedCallback doc []) i "submit" =
      List.replicate ((querySelectorAll doc matchesForm).count i)
        (Handler.submitHandler i) := by
  rw [domContentLoadedCallback_eq, listenersFor_append, listenersFor_append]
  rw [submitListeners, clickListeners,
    listenersFor_map_same Handler.submitHandler "submit",
    listenersFor_map_ne Handler.clickHandler "click" "submit" (by decide)]
  simp [listenersFor]

lemma listenersFor_callback_click (doc : Document) (i : Nat) :
    listenersFor (domContentLoadedCallback doc []) i "click" =
      List.replicate ((querySelectorAll doc matchesBtn).count i)
        (Handler.clickHandler i) := by
  rw [domContentLoadedCallback_eq, listenersFor_append, listenersFor_append]
  rw [submitListeners, clickListeners,
    listenersFor_map_same Handler.clickHandler "click",
    listenersFor_map_ne Handler.submitHandler "submit" "click" (by decide)]
  simp [listenersFor]

/-! ### Dispatch after the callback has run -/

lemma dispatchEvent_submit_form (doc : Document) (i : Nat) (e : Elem)
    (hget : doc[i]? = some e) (hform : matchesForm e = true) :
    dispatchEvent (domContentLoadedCallback doc []) i "submit" =
      ⟨true, [.entry "Form submitted:" i]⟩ := by
  have hcount : (querySelectorAll doc matchesForm).count i = 1 := by
    rw [count_querySelectorAll, hget]
    simp [hform]
  unfold dispatchEvent
  rw [listenersFor_callback_submit, hcount]
  rfl

lemma dispatchEvent_click_btn (doc : Document) (i : Nat) (e : Elem)
    (hget : doc[i]? = some e) (hbtn : matchesBtn e = true) :
    dispatchEvent (domContentLoadedCallback doc []) i "click" =
      ⟨false, [.entry "Button clicked:" i]⟩ := by
  have hcount : (querySelectorAll doc matchesBtn).count i = 1 := by
    rw [count_querySelectorAll, hget]
    simp [hbtn]
  unfold dispatchEvent
  rw [listenersFor_callback_click, hcount]
  rfl

lemma listenersFor_twice_submit (doc : Document) (i : Nat) :
    listenersFor
        (domContentLoadedCallback doc (domContentLoadedCallback doc []))
        i "submit" =
      List.replicate ((querySelectorAll doc matchesForm).count i)
          (Handler.submitHandler i) ++
        List.replicate ((querySelectorAll doc matchesForm).count i)
          (Handler.submitHandler i) := by
  rw [domContentLoadedCallback_eq doc (domContentLoadedCallback doc []),
    listenersFor_append, listenersFor_append, listenersFor_callback_submit]
  rw [submitListeners, clickListeners,
    listenersFor_map_same Handler.submitHandler "submit",
    listenersFor_map_ne Handler.clickHandler "click" "submit" (by decide)]
  simp

lemma dispatchEvent_twice_submit (doc : Document) (i : Nat) (e : Elem)
    (hget : doc[i]? = some e) (hform : matchesForm e = true) :
    dispatchEvent
        (domContentLoadedCallback doc (domContentLoadedCallback doc []))
        i "submit" =
      ⟨true, [.entry "Form submitted:" i, .entry "Form submitted:" i]⟩ := by
  have hcount : (querySelectorAll doc matchesForm).count i = 1 := by
    rw [count_querySelectorAll, hget]
    simp [hform]
  unfold dispatchEvent
  rw [listenersFor_twice_submit, hcount]
  rfl

/-! ### Page-lifecycle lemmas -/

lemma stepWorld_frame (w : World) (ev : PageEvent) :
    (stepWorld w ev).doc = w.doc ∧
    (stepWorld w ev).networkCalls = w.networkCalls ∧
    (stepWorld w ev).fileWrites = w.fileWrites ∧
    (stepWorld w ev).userVisibleOutput = w.userVisibleOutput := by
  cases ev <;> exact ⟨rfl, rfl, rfl, rfl⟩

lemma runEvents_frame (evs : List PageEvent) : ∀ w : World,
    (runEvents w evs).doc = w.doc ∧
    (runEvents w evs).networkCalls = w.networkCalls ∧
    (runEvents w evs).fileWrites = w.fileWrites ∧
    (runEvents w evs).userVisibleOutput = w.userVisibleOutput := by
  induction evs with
  | nil => intro w; exact ⟨rfl, rfl, rfl, rfl⟩
  | cons ev rest ih =>
    intro w
    rw [show runEvents w (ev :: rest) =
      runEvents (stepWorld w ev) rest from rfl]
    obtain ⟨a1, a2, a3, a4⟩ := ih (stepWorld w ev)
    obtain ⟨b1, b2, b3, b4⟩ := stepWorld_frame w ev
    exact ⟨a1.trans b1, a2.trans b2, a3.trans b3, a4.trans b4⟩

lemma stepWorld_regs_of_ne (w : World) (ev : PageEvent)
    (h : ev ≠ PageEvent.domContentLoaded) : (stepWorld w ev).regs = w.regs := by
  cases ev with
  | domContentLoaded => exact absurd rfl h
  | windowLoad => rfl
  | userSubmit i => rfl
  | userClick i => rfl

lemma runEvents_regs_of_not_mem (evs : List PageEvent) :
    ∀ w : World, PageEvent.domContentLoaded ∉ evs →
      (runEvents w evs).regs = w.regs := by
  induction evs with
  | nil => intro w _; rfl
  | cons ev rest ih =>
    intro w h
    rw [show runEvents w (ev :: rest) =
      runEvents (stepWorld w ev) rest from rfl]
    rw [ih (stepWorld w ev) (fun hm => h (List.mem_cons_of_mem _ hm))]
    exact stepWorld_regs_of_ne w ev (fun he => h (he ▸ List.mem_cons_self _ _))

lemma runEvents_console (evs : List PageEvent) : ∀ w : World,
    (runEvents w evs).console = w.console ++ emittedTraces w.doc w.regs evs := by
  induction evs with
  | nil => intro w; simp [runEvents, emittedTraces]
  | cons ev rest ih =>
    intro w
    rw [show runEvents w (ev :: rest) =
      runEvents (stepWorld w ev) rest from rfl, ih]
    cases ev with
    | domContentLoaded => rfl
    | windowLoad => rfl
    | userSubmit i => simp [stepWorld, emittedTraces, List.append_assoc]
    | userClick i => simp [stepWorld, emittedTraces, List.append_assoc]

lemma emittedTraces_clicks (doc : Document) (regs : Registry) :
    ∀ cs : List Nat,
      (∀ i ∈ cs, dispatchEvent regs i "click" =
        ⟨false, [.entry "Button clicked:" i]⟩) →
      emittedTraces doc regs (cs.map PageEvent.userClick) =
        cs.map (fun i => LogEntry.entry "Button clicked:" i) := by
  intro cs
  induction cs with
  | nil => intro _; rfl
  | cons c cs ih =>
    intro h
    simp only [List.map_cons, emittedTraces]
    rw [h c (List.mem_cons_self _ _),
      ih (fun i hi => h i (List.mem_cons_of_mem _ hi))]
    rfl

/-! ### The claims -/

/-- Claim C1: for every form element present in the document at trigger
time, the interceptor's submit handler unconditionally suppresses the
default effect (native navigation never occurs) and produces a diagnostic
trace identifying the triggering form.  Quantifying over all documents
covers every number N ≥ 0 of forms. -/
theorem C1_submit_interception (doc : Document) (i : Nat) (e : Elem)
    (hget : doc[i]? = some e) (hform : matchesForm e = true) :
    dispatchEvent (domContentLoadedCallback doc []) i "submit" =
      ⟨true, [.entry "Form submitted:" i]⟩ ∧
    nativeNavigationOccurs (domContentLoadedCallback doc []) i = false := by
  refine ⟨dispatchEvent_submit_form doc i e hget hform, ?_⟩
  rw [nativeNavigationOccurs, dispatchEvent_submit_form doc i e hget hform]
  rfl

/-- Witness for C1: the one-form document of spec scenario A
(a form with id `login-form`). -/
theorem C1_submit_interception_witness :
    dispatchEvent
        (domContentLoadedCallback [⟨"form", [], "login-form"⟩] []) 0 "submit" =
      ⟨true, [.entry "Form submitted:" 0]⟩ ∧
    nativeNavigationOccurs
        (domContentLoadedCallback [⟨"form", [], "login-form"⟩] []) 0 = false :=
  C1_submit_interception [⟨"form", [], "login-form"⟩] 0
    ⟨"form", [], "login-form"⟩ rfl rfl

/-- Claim C2: for every element carrying the `btn` marker, triggering its
click interaction produces exactly one diagnostic trace referencing that
element, and the handler does not suppress any default click behavior
(`defaultPrevented` stays false). -/
theorem C2_click_logging (doc : Document) (i : Nat) (e : Elem)
    (hget : doc[i]? = some e) (hbtn : matchesBtn e = true) :
    dispatchEvent (domContentLoadedCallback doc []) i "click" =
      ⟨false, [.entry "Button clicked:" i]⟩ :=
  dispatchEvent_click_btn doc i e hget hbtn

/-- Witness for C2: a single marked button element. -/
theorem C2_click_logging_witness :
    dispatchEvent
        (domContentLoadedCallback [⟨"button", ["btn"], ""⟩] []) 0 "click" =
      ⟨false, [.entry "Button clicked:" 0]⟩ :=
  C2_click_logging [⟨"button", ["btn"], ""⟩] 0 ⟨"button", ["btn"], ""⟩ rfl rfl

/-- Claim C3: after a single run of the registration pass, every matched
element holds exactly one binding of each relevant kind: a form has
exactly one submit handler, a marked control exactly one click handler. -/
theorem C3_single_binding (doc : Document) (i : Nat) (e : Elem)
    (hget : doc[i]? = some e) :
    (matchesForm e = true →
      (listenersFor (domContentLoadedCallback doc []) i "submit").length = 1) ∧
    (matchesBtn e = true →
      (listenersFor (domContentLoadedCallback doc []) i "click").length = 1) := by
  constructor
  · intro h
    rw [listenersFor_callback_submit, List.length_replicate,
      count_querySelectorAll, hget]
    simp [h]
  · intro h
    rw [listenersFor_callback_click, List.length_replicate,
      count_querySelectorAll, hget]
    simp [h]

/-- Witness for C3: an element that is both a form and a marked control
receives exactly one binding of each kind. -/
theorem C3_single_binding_witness :
    (listenersFor
      (domContentLoadedCallback [⟨"form", ["btn"], ""⟩] []) 0 "submit").length
        = 1 ∧
    (listenersFor
      (domContentLoadedCallback [⟨"form", ["btn"], ""⟩] []) 0 "click").length
        = 1 :=
  ⟨(C3_single_binding [⟨"form", ["btn"], ""⟩] 0 ⟨"form", ["btn"], ""⟩ rfl).1 rfl,
   (C3_single_binding [⟨"form", ["btn"], ""⟩] 0 ⟨"form", ["btn"], ""⟩ rfl).2 rfl⟩

/-- Counterexample to C4 as stated: running the registration pass twice on
a one-form document and then dispatching a single submit event emits two
diagnostic traces, not exactly one (each pass registers a fresh closure,
which the DOM never coalesces with the earlier one). -/
theorem C4_counterexample :
    (dispatchEvent
        (domContentLoadedCallback [⟨"form", [], "login-form"⟩]
          (domContentLoadedCallback [⟨"form", [], "login-form"⟩] []))
        0 "submit").logs.length = 2 ∧
    ¬ (dispatchEvent
        (domContentLoadedCallback [⟨"form", [], "login-form"⟩]
          (domContentLoadedCallback [⟨"form", [], "login-form"⟩] []))
        0 "submit").logs.length = 1 := by
  constructor
  · rw [dispatchEvent_twice_submit [⟨"form", [], "login-form"⟩] 0
      ⟨"form", [], "login-form"⟩ rfl rfl]
    rfl
  · rw [dispatchEvent_twice_submit [⟨"form", [], "login-form"⟩] 0
      ⟨"form", [], "login-form"⟩ rfl rfl]
    decide

/-- Claim C4 as amended: if the registration pass is invoked twice
against the same already-bound document, each submit event on a form is
still suppressed (the default effect never occurs), but each submit event
emits one trace per invocation, i.e. two diagnostic traces, because each
pass registers a fresh handler closure. -/
theorem C4_double_invocation (doc : Document) (i : Nat) (e : Elem)
    (hget : doc[i]? = some e) (hform : matchesForm e = true) :
    dispatchEvent
        (domContentLoadedCallback doc (domContentLoadedCallback doc []))
        i "submit" =
      ⟨true, [.entry "Form submitted:" i, .entry "Form submitted:" i]⟩ ∧
    nativeNavigationOccurs
        (domContentLoadedCallback doc (domContentLoadedCallback doc []))
        i = false := by
  refine ⟨dispatchEvent_twice_submit doc i e hget hform, ?_⟩
  rw [nativeNavigationOccurs, dispatchEvent_twice_submit doc i e hget hform]
  rfl

/-- Witness for the amended C4. -/
theorem C4_double_invocation_witness :
    dispatchEvent
        (domContentLoadedCallback [⟨"form", [], "f"⟩]
          (domContentLoadedCallback [⟨"form", [], "f"⟩] []))
        0 "submit" =
      ⟨true, [.entry "Form submitted:" 0, .entry "Form submitted:" 0]⟩ ∧
    nativeNavigationOccurs
        (domContentLoadedCallback [⟨"form", [], "f"⟩]
          (domContentLoadedCallback [⟨"form", [], "f"⟩] []))
        0 = false :=
  C4_double_invocation [⟨"form", [], "f"⟩] 0 ⟨"form", [], "f"⟩ rfl rfl

/-- Claim C5: empty collections make the binding loops no-ops — with no
forms the form query and the submit-listener list are empty; with no
marked controls the click query and click-listener list are empty, the
callback only adds the submit listeners, and clicking any element emits
no trace; with neither kind present the callback registers nothing. -/
theorem C5_empty_collections (doc : Document) :
    ((∀ e ∈ doc, matchesForm e = false) →
      querySelectorAll doc matchesForm = [] ∧ submitListeners doc = []) ∧
    ((∀ e ∈ doc, matchesBtn e = false) →
      querySelectorAll doc matchesBtn = [] ∧ clickListeners doc = [] ∧
      domContentLoadedCallback doc [] = submitListeners doc ∧
      ∀ i, dispatchEvent (domContentLoadedCallback doc []) i "click" =
        ⟨false, []⟩) ∧
    ((∀ e ∈ doc, matchesForm e = false) → (∀ e ∈ doc, matchesBtn e = false) →
      domContentLoadedCallback doc [] = []) := by
  refine ⟨?_, ?_, ?_⟩
  · intro h
    have hq : querySelectorAll doc matchesForm = [] :=
      selectFrom_eq_nil doc matchesForm h 0
    exact ⟨hq, by rw [submitListeners, hq]; rfl⟩
  · intro h
    have hq : querySelectorAll doc matchesBtn = [] :=
      selectFrom_eq_nil doc matchesBtn h 0
    refine ⟨hq, by rw [clickListeners, hq]; rfl, ?_, ?_⟩
    · rw [domContentLoadedCallback_eq, clickListeners, hq]
      simp
    · intro i
      unfold dispatchEvent
      rw [listenersFor_callback_click, hq]
      rfl
  · intro hf hb
    have hqf : querySelectorAll doc matchesForm = [] :=
      selectFrom_eq_nil doc matchesForm hf 0
    have hqb : querySelectorAll doc matchesBtn = [] :=
      selectFrom_eq_nil doc matchesBtn hb 0
    rw [domContentLoadedCallback_eq, submitListeners, clickListeners, hqf, hqb]
    rfl

/-- Witness for C5: a document holding one plain `div` (neither a form
nor a marked control). -/
theorem C5_empty_collections_witness :
    (querySelectorAll [⟨"div", [], ""⟩] matchesForm = [] ∧
      submitListeners [⟨"div", [], ""⟩] = []) ∧
    domContentLoadedCallback [⟨"div", [], ""⟩] [] = [] ∧
    dispatchEvent (domContentLoadedCallback [⟨"div", [], ""⟩] []) 0 "click" =
      ⟨false, []⟩ :=
  ⟨(C5_empty_collections [⟨"div", [], ""⟩]).1 (by decide),
   (C5_empty_collections [⟨"div", [], ""⟩]).2.2 (by decide) (by decide),
   ((C5_empty_collections [⟨"div", [], ""⟩]).2.1 (by decide)).2.2.2 0⟩

/-- Claim C6: for any sequence of clicks on marked controls after the
registration pass, the console holds one distinct trace line per click,
in click order (the three-control scenario is the witness); and handler
binding across elements follows document order (the discovered click
targets are strictly increasing document positions). -/
theorem C6_click_order (doc : Document) (cs : List Nat)
    (h : ∀ i ∈ cs, ∃ e, doc[i]? = some e ∧ matchesBtn e = true) :
    (runEvents (initWorld doc)
        (PageEvent.domContentLoaded :: cs.map PageEvent.userClick)).console =
      cs.map (fun i => LogEntry.entry "Button clicked:" i) ∧
    (querySelectorAll doc matchesBtn).Sorted (· < ·) := by
  constructor
  · rw [show runEvents (initWorld doc)
        (PageEvent.domContentLoaded :: cs.map PageEvent.userClick) =
      runEvents (stepWorld (initWorld doc) PageEvent.domContentLoaded)
        (cs.map PageEvent.userClick) from rfl]
    rw [runEvents_console]
    show [] ++ emittedTraces doc (domContentLoadedCallback doc [])
        (cs.map PageEvent.userClick) = _
    rw [List.nil_append]
    refine emittedTraces_clicks doc (domContentLoadedCallback doc []) cs ?_
    intro i hi
    obtain ⟨e, hget, hbtn⟩ := h i hi
    exact dispatchEvent_click_btn doc i e hget hbtn
  · exact sorted_selectFrom doc matchesBtn 0

/-- Witness for C6: spec scenario C — three marked controls clicked in
sequence yield three distinct trace lines in click order. -/
theorem C6_click_order_witness :
    (runEvents
        (initWorld [⟨"button", ["btn"], "a"⟩, ⟨"button", ["btn"], "b"⟩,
          ⟨"button", ["btn"], "c"⟩])
        (PageEvent.domContentLoaded ::
          [0, 1, 2].map PageEvent.userClick)).console =
      [0, 1, 2].map (fun i => LogEntry.entry "Button clicked:" i) ∧
    (querySelectorAll
        [⟨"button", ["btn"], "a"⟩, ⟨"button", ["btn"], "b"⟩,
          ⟨"button", ["btn"], "c"⟩] matchesBtn).Sorted (· < ·) :=
  C6_click_order
    [⟨"button", ["btn"], "a"⟩, ⟨"button", ["btn"], "b"⟩,
      ⟨"button", ["btn"], "c"⟩]
    [0, 1, 2]
    (by
      intro i hi
      simp only [List.mem_cons, List.not_mem_nil, or_false] at hi
      rcases hi with rfl | rfl | rfl
      · exact ⟨⟨"button", ["btn"], "a"⟩, rfl, rfl⟩
      · exact ⟨⟨"button", ["btn"], "b"⟩, rfl, rfl⟩
      · exact ⟨⟨"button", ["btn"], "c"⟩, rfl, rfl⟩)

/-- Claim C7: one-shot trigger — for any page lifecycle in which the
browser fires `DOMContentLoaded` exactly once, the registration pass
executes exactly once (the final registry is exactly one application of
the callback to the empty registry), and no event after the pass changes
the registry (no subsequent internal state transitions). -/
theorem C7_one_shot (doc : Document) (pre post : List PageEvent)
    (hpre : PageEvent.domContentLoaded ∉ pre)
    (hpost : PageEvent.domContentLoaded ∉ post) :
    (runEvents (initWorld doc)
        (pre ++ PageEvent.domContentLoaded :: post)).regs =
      domContentLoadedCallback doc [] ∧
    (∀ w : World, (runEvents w post).regs = w.regs) := by
  constructor
  · have hsplit : runEvents (initWorld doc)
        (pre ++ PageEvent.domContentLoaded :: post) =
        runEvents
          (stepWorld (runEvents (initWorld doc) pre) PageEvent.domContentLoaded)
          post := by
      simp [runEvents, List.foldl_append]
    rw [hsplit, runEvents_regs_of_not_mem post _ hpost]
    have hdoc : (runEvents (initWorld doc) pre).doc = doc :=
      (runEvents_frame pre (initWorld doc)).1
    have hregs : (runEvents (initWorld doc) pre).regs = [] :=
      runEvents_regs_of_not_mem pre (initWorld doc) hpre
    show domContentLoadedCallback (runEvents (initWorld doc) pre).doc
      (runEvents (initWorld doc) pre).regs = _
    rw [hdoc, hregs]
  · intro w
    exact runEvents_regs_of_not_mem post w hpost

/-- Witness for C7: a lifecycle with a click before document-ready, the
`DOMContentLoaded` event, then a submit and the window `load` event. -/
theorem C7_one_shot_witness :
    (runEvents (initWorld [⟨"form", [], "f"⟩])
        ([PageEvent.userClick 0] ++ PageEvent.domContentLoaded ::
          [PageEvent.userSubmit 0, PageEvent.windowLoad])).regs =
      domContentLoadedCallback [⟨"form", [], "f"⟩] [] ∧
    (∀ w : World,
      (runEvents w [PageEvent.userSubmit 0, PageEvent.windowLoad]).regs =
        w.regs) :=
  C7_one_shot [⟨"form", [], "f"⟩] [PageEvent.userClick 0]
    [PageEvent.userSubmit 0, PageEvent.windowLoad] (by decide) (by decide)

/-- Claim C8: effect frame — over any sequence of lifecycle events, the
script leaves the document unchanged and touches no other effect channel
(no network calls, no file writes, no user-visible output); its only
observable effects are the console traces, the registry it builds, and
the suppression of native navigation. -/
theorem C8_effect_frame (w : World) (evs : List PageEvent) :
    (runEvents w evs).doc = w.doc ∧
    (runEvents w evs).networkCalls = w.networkCalls ∧
    (runEvents w evs).fileWrites = w.fileWrites ∧
    (runEvents w evs).userVisibleOutput = w.userVisibleOutput :=
  runEvents_frame evs w

/-- Claim C9: inside the submit handler, `preventDefault` is performed
before the diagnostic trace is emitted: the handler body is exactly the
two-action sequence, and at any position holding a `console.log` action,
executing only the earlier actions has already set `defaultPrevented`. -/
theorem C9_prevent_before_log (i : Nat) :
    handlerBody (Handler.submitHandler i) =
      [Action.preventDefault, Action.consoleLog "Form submitted:" i] ∧
    ∀ k m j, (handlerBody (Handler.submitHandler i))[k]? =
        some (Action.consoleLog m j) →
      (runActions ((handlerBody (Handler.submitHandler i)).take k)
        ⟨false, []⟩).defaultPrevented = true := by
  refine ⟨rfl, ?_⟩
  intro k m j hk
  match k with
  | 0 => simp [handlerBody] at hk
  | 1 => rfl
  | (n + 2) => simp [handlerBody] at hk

/-- Witness for C9: the `console.log` action sits at position 1, and the
actions before it already suppress the default. -/
theorem C9_prevent_before_log_witness :
    handlerBody (Handler.submitHandler 0) =
      [Action.preventDefault, Action.consoleLog "Form submitted:" 0] ∧
    (runActions ((handlerBody (Handler.submitHandler 0)).take 1)
      ⟨false, []⟩).defaultPrevented = true :=
  ⟨(C9_prevent_before_log 0).1,
   (C9_prevent_before_log 0).2 1 "Form submitted:" 0 rfl⟩

/-- Claim C10: determinism — from any two ambient states sharing the same
document and the same registry (in particular two fresh page loads), the
same interaction sequence emits exactly the same sequence of new
diagnostic traces; handlers consult no ambient mutable state beyond
their captured element reference. -/
theorem C10_deterministic (w₁ w₂ : World) (evs : List PageEvent)
    (hdoc : w₁.doc = w₂.doc) (hregs : w₁.regs = w₂.regs) :
    (runEvents w₁ evs).console.drop w₁.console.length =
      (runEvents w₂ evs).console.drop w₂.console.length := by
  rw [runEvents_console evs w₁, runEvents_console evs w₂,
    List.drop_left, List.drop_left, hdoc, hregs]

/-- Witness for C10: two worlds with the same one-form document and
registry but different pre-existing console contents and network logs
emit the same new traces for a load-then-submit sequence. -/
theorem C10_deterministic_witness :
    (runEvents
        ⟨[⟨"form", [], "f"⟩], [], [LogEntry.entry "old" 7], [], ["stale"], [], []⟩
        [PageEvent.domContentLoaded, PageEvent.userSubmit 0]).console.drop 1 =
      (runEvents
        ⟨[⟨"form", [], "f"⟩], [], [], [], [], [], []⟩
        [PageEvent.domContentLoaded, PageEvent.userSubmit 0]).console.drop 0 :=
  C10_deterministic
    ⟨[⟨"form", [], "f"⟩], [], [LogEntry.entry "old" 7], [], ["stale"], [], []⟩
    ⟨[⟨"form", [], "f"⟩], [], [], [], [], [], []⟩
    [PageEvent.domContentLoaded, PageEvent.userSubmit 0] rfl rfl

end DevCollab
